import Mathlib

/-!
Verification of the `maybe` Result library (`src/result.ts`).

The library provides a discriminated Result type with two variants, `Ok T`
and `Err E`, constructed by the factories `ok` / `err`, a capability
interface (`isOk`, `isErr`, `unwrap`, `unwrapOr`, `expect`, `expectErr`,
`map`, `mapErr`, `andThen`, iteration), and namespace helpers
(`Result.wrap`, `Result.wrapAsync`, `Result.match`).

Embedding conventions:
- Pure method bodies become pure Lean functions.
- Methods that can throw (`unwrap`, `expect`, `expectErr`) return
  `Except String` carrying the thrown Error message, built exactly as the
  source builds it; the string rendering of a payload is passed in as a
  `render` function standing for JS string interpolation.
- To reason about caller-supplied mappers that may themselves throw, each
  combinator also has an exception-aware translation (suffix `E`) where the
  mapper returns `Except X`; a subterm of the body that cannot throw is
  translated inside `Except.ok`, and a mapper call is left un-caught, just
  as the source bodies contain no try/catch.
- Object identity (which concrete instance a method returns) is modelled by
  an allocation counter: `RRef` pairs a Result value with the numeric id of
  the allocation that produced it, and the `A`-suffixed operations thread a
  fresh-id counter. A body that executes `return this` yields the receiver
  id unchanged; a body that calls the `ok` / `err` factory allocates a
  fresh id, exactly following which of the two each source line does.
- The promise given to `wrapAsync` is modelled by its settled outcome
  (fulfilled value or rejection reason), since the caller suspends until
  settlement; `await` re-raises a rejection, which the catch converts.
-/

namespace MaybeLib

universe u v

inductive Result (T : Type u) (E : Type v) where
  | Ok : T → Result T E
  | Err : E → Result T E
  deriving Repr

variable {T : Type u} {E : Type v} {U F A X : Type}

namespace Result

/-- Translation of `isOk()`: returns the `ok` tag field, set to `true` by the
`OkImpl` constructor and `false` by the `ErrImpl` constructor. -/
def isOk : Result T E → Bool
  | .Ok _ => true
  | .Err _ => false

/-- Translation of `isErr()`: returns the `err` tag field, set to `false` by
the `OkImpl` constructor and `true` by the `ErrImpl` constructor. -/
def isErr : Result T E → Bool
  | .Ok _ => false
  | .Err _ => true

/-- Translation of `unwrap()`: `OkImpl` returns `this.value`; `ErrImpl`
throws `new Error("Tried to unwrap an Err:\n" + this.value)`. -/
def unwrap (render : E → String) : Result T E → Except String T
  | .Ok v => .ok v
  | .Err e => .error ("Tried to unwrap an Err:\n" ++ render e)

/-- Translation of `unwrapOr(fallback)`: `OkImpl` returns `this.value`,
`ErrImpl` returns `fallback`. The TS return type is the union `T | U`,
rendered here as `T ⊕ U`. -/
def unwrapOr (r : Result T E) (fallback : U) : T ⊕ U :=
  match r with
  | .Ok v => Sum.inl v
  | .Err _ => Sum.inr fallback

/-- Translation of `expect(msg)`: `OkImpl` returns `this.value`; `ErrImpl`
throws `new Error(msg + " - Error:\n" + this.value)`. -/
def expect (render : E → String) (msg : String) : Result T E → Except String T
  | .Ok v => .ok v
  | .Err e => .error (msg ++ " - Error:\n" ++ render e)

/-- Translation of `expectErr(msg)`: `OkImpl` throws `new Error(msg)`;
`ErrImpl` returns `this.value`. -/
def expectErr (msg : String) : Result T E → Except String E
  | .Ok _ => .error msg
  | .Err e => .ok e

/-- Translation of `map(mapper)`: `OkImpl` returns `ok(mapper(this.value))`,
`ErrImpl` returns `this` (same tag and payload). -/
def map (mapper : T → U) : Result T E → Result U E
  | .Ok v => .Ok (mapper v)
  | .Err e => .Err e

/-- Translation of `mapErr(mapper)`: `OkImpl` returns `this`, `ErrImpl`
returns `err(mapper(this.value))`. -/
def mapErr (mapper : E → F) : Result T E → Result T F
  | .Ok v => .Ok v
  | .Err e => .Err (mapper e)

/-- Translation of `andThen(mapper)`: `OkImpl` returns `mapper(this.value)`
directly (no extra wrapping), `ErrImpl` returns `this`. In the source the
error side has the union type `E | E2`; since the claims relate values, both
sides are embedded at a common error type `E`. -/
def andThen (mapper : T → Result U E) : Result T E → Result U E
  | .Ok v => mapper v
  | .Err e => .Err e

/-- Exception-aware translation of `map`: the mapper call on the Ok branch is
not wrapped in any catch, so a raise in `mapper` propagates; the Err branch
evaluates no caller code and cannot raise. -/
def mapE (mapper : T → Except X U) : Result T E → Except X (Result U E)
  | .Ok v => (mapper v).map Result.Ok
  | .Err e => .ok (.Err e)

/-- Exception-aware translation of `mapErr`: dual of `mapE`. -/
def mapErrE (mapper : E → Except X F) : Result T E → Except X (Result T F)
  | .Ok v => .ok (.Ok v)
  | .Err e => (mapper e).map Result.Err

/-- Exception-aware translation of `andThen`: on Ok the mapper result is
returned verbatim, raise included; on Err the mapper is never evaluated. -/
def andThenE (mapper : T → Except X (Result U E)) : Result T E → Except X (Result U E)
  | .Ok v => mapper v
  | .Err e => .ok (.Err e)

/-- Exception-aware translation of `unwrapOr`: both bodies are plain returns
with no throwing subterm. -/
def unwrapOrE (r : Result T E) (fallback : U) : Except X (T ⊕ U) :=
  .ok (r.unwrapOr fallback)

/-- Exception-aware translation of `isOk`: a plain field read. -/
def isOkE (r : Result T E) : Except X Bool :=
  .ok r.isOk

/-- Exception-aware translation of `isErr`: a plain field read. -/
def isErrE (r : Result T E) : Except X Bool :=
  .ok r.isErr

/-- Translation of `Result.wrap(op)`: `try { return ok(op()) } catch (e)
{ return err(e) }`, with the fallible `op` modelled as its `Except` outcome. -/
def wrap (op : Except E T) : Result T E :=
  match op with
  | .ok v => .Ok v
  | .error e => .Err e

/-- Exception-aware translation of `Result.wrap`: both branches of the
try/catch end in a plain return, so the surrounding context never sees a
raise from `wrap` itself. -/
def wrapE (op : Except E T) : Except X (Result T E) :=
  match op with
  | .ok v => .ok (.Ok v)
  | .error e => .ok (.Err e)

/-- Translation of `Result.wrapAsync(op)`: `try { return ok(await op()) }
catch (e) { return err(e) }`. The promise is modelled by its settled
outcome; `await` re-raises a rejection, which the catch converts to Err.
Both paths return a Result, so the returned promise always settles to a
Result once `op` settles. -/
def wrapAsync (op : Except E T) : Except X (Result T E) :=
  match op with
  | .ok v => .ok (.Ok v)
  | .error e => .ok (.Err e)

/-- Translation of `Result.match(result, okFn?, errFn?)`: when `result.isOk()`
it returns `okFn?.(result.unwrap())`, otherwise `errFn?.(result.value)`.
An absent handler is `none` and the optional call on it returns `undefined`,
modelled as `none`; on the Ok branch `result.unwrap()` is the payload. -/
def matchR (r : Result T E) (okFn : Option (T → A)) (errFn : Option (E → A)) : Option A :=
  match r with
  | .Ok v => okFn.map (fun f => f v)
  | .Err e => errFn.map (fun f => f e)

/-- Exception-aware translation of `Result.match`: the selected handler call
is not caught; the unselected handler is never evaluated. -/
def matchE (r : Result T E) (okFn : Option (T → Except X A))
    (errFn : Option (E → Except X A)) : Except X (Option A) :=
  match r with
  | .Ok v =>
    match okFn with
    | some f => (f v).map some
    | none => .ok none
  | .Err e =>
    match errFn with
    | some f => (f e).map some
    | none => .ok none

end Result

/-- Translation of the factory `ok(val)`. -/
def ok (v : T) : Result T E := .Ok v

/-- Translation of the factory `err(val)`. -/
def err (e : E) : Result T E := .Err e

/-- Model of the JS values an Ok payload ranges over for iteration claims:
numbers, strings, booleans, arrays, null and undefined. -/
inductive JSVal where
  | num : Int → JSVal
  | str : String → JSVal
  | boolean : Bool → JSVal
  | arr : List JSVal → JSVal
  | jsnull : JSVal
  | undef : JSVal
  deriving Repr

/-- Whether `Symbol.iterator in Object(v)` holds: among the modelled values,
the object coercion of an array is the array itself and the coercion of a
string is a String object, both iterable; Number and Boolean wrapper
objects and the plain objects obtained from null and undefined have no
`Symbol.iterator` property. -/
def jsHasIterator : JSVal → Bool
  | .arr _ => true
  | .str _ => true
  | _ => false

/-- Elements produced by the iterator of `Object(v)` when one exists: an
array yields its elements in order; a string yields its code points in
order, each as a one-character string. -/
def jsIterElems : JSVal → List JSVal
  | .arr xs => xs
  | .str s => s.data.map (fun c => JSVal.str (String.mk [c]))
  | _ => []

/-- Translation of `OkImpl[Symbol.iterator]`: delegate to the iterator of
`Object(this.value)` when present, otherwise an immediately-done iterator. -/
def okIterate (v : JSVal) : List JSVal :=
  if jsHasIterator v then jsIterElems v else []

/-- Translation of iterating a Result: `ErrImpl[Symbol.iterator]` is the
immediately-done iterator; the Ok side is `okIterate`. -/
def Result.iterate : Result JSVal E → List JSVal
  | .Ok v => okIterate v
  | .Err _ => []

/-- Exception-aware translation of iteration: neither iterator body contains
a throw, and neither calls `unwrap`; delegation targets are the built-in
array and string iterators, which do not throw on the modelled values. -/
def Result.iterateE : Result JSVal E → Except X (List JSVal)
  | .Ok v => .ok (okIterate v)
  | .Err _ => .ok []

/-- A Result instance: the value together with the numeric id of the
allocation (`new OkImpl` / `new ErrImpl`) that produced it. Two expressions
denote the same runtime object exactly when their ids are equal. -/
structure RRef (T : Type u) (E : Type v) where
  id : Nat
  val : Result T E
  deriving Repr

/-- Allocation-counting translation of the factory `ok(val)`: `new OkImpl`
consumes the next fresh id. -/
def mkOk (v : T) (n : Nat) : RRef T E × Nat := (⟨n, .Ok v⟩, n + 1)

/-- Allocation-counting translation of the factory `err(val)`: `new ErrImpl`
consumes the next fresh id. -/
def mkErr (e : E) (n : Nat) : RRef T E × Nat := (⟨n, .Err e⟩, n + 1)

/-- Allocation-counting translation of `map`: `OkImpl.map` calls the `ok`
factory on the mapper result, allocating a fresh instance; `ErrImpl.map`
executes `return this`, so the receiver id comes back unchanged and no
allocation happens. -/
def RRef.mapA (r : RRef T E) (mapper : T → U) (n : Nat) : RRef U E × Nat :=
  match r.val with
  | .Ok v => mkOk (mapper v) n
  | .Err e => (⟨r.id, .Err e⟩, n)

/-- Allocation-counting translation of `mapErr`: `OkImpl.mapErr` executes
`return this`; `ErrImpl.mapErr` calls the `err` factory on the mapper
result, allocating a fresh instance. -/
def RRef.mapErrA (r : RRef T E) (mapper : E → F) (n : Nat) : RRef T F × Nat :=
  match r.val with
  | .Ok v => (⟨r.id, .Ok v⟩, n)
  | .Err e => mkErr (mapper e) n

/-- Allocation-counting translation of `andThen`: `OkImpl.andThen` returns
`mapper(this.value)` verbatim, whatever instance the mapper produced;
`ErrImpl.andThen` executes `return this`. -/
def RRef.andThenA (r : RRef T E) (mapper : T → Nat → RRef U E × Nat) (n : Nat) :
    RRef U E × Nat :=
  match r.val with
  | .Ok v => mapper v n
  | .Err e => (⟨r.id, .Err e⟩, n)

/-- C1: `andThen` is monadic bind. `ok(v).andThen(f)` returns exactly the
Result `f(v)` — the pure value, and in the allocation model the very
instance the mapper produced, with no extra wrapping or allocation; on an
Err it returns the same Err unchanged (same payload, same instance id) and
never invokes the mapper: even a mapper that always raises leaves the Err
case raise-free. -/
theorem C1_andThen_bind_contract (v : T) (e : E) (f : T → Result U E)
    (m : T → Except X (Result U E)) (g : T → Nat → RRef U E × Nat) (n k : Nat) :
    (ok v : Result T E).andThen f = f v ∧
    (err e : Result T E).andThen f = err e ∧
    Result.andThenE m (err e : Result T E) = Except.ok (err e) ∧
    RRef.andThenA ⟨k, Result.Ok v⟩ g n = g v n ∧
    (RRef.andThenA ⟨k, Result.Err e⟩ g n).1.id = k ∧
    (RRef.andThenA ⟨k, (Result.Err e : Result T E)⟩ g n).1.val = Result.Err e :=
  ⟨rfl, rfl, rfl, rfl, rfl, rfl⟩

/-- C2: functor law for `map` and its dual for `mapErr`. `ok(v).map(f)` is an
Ok carrying `f(v)` (so unwrap gives `f(v)`); `err(e).map(f)` is still an Err
carrying `e` with the mapper never invoked (a mapper that always raises
leaves the Err case raise-free); dually `err(e).mapErr(g)` is an Err
carrying `g(e)` and `ok(v).mapErr(g)` passes through unchanged with the
mapper never invoked. -/
theorem C2_map_functor_laws (v : T) (e : E) (f : T → U) (g : E → F)
    (ren : E → String) (m : T → Except X U) (mg : E → Except X F) :
    (ok v : Result T E).map f = ok (f v) ∧
    Result.unwrap ren ((ok v : Result T E).map f) = Except.ok (f v) ∧
    (err e : Result T E).map f = err e ∧
    ((err e : Result T E).map f).isErr = true ∧
    Result.mapE m (err e : Result T E) = Except.ok (err e) ∧
    (err e : Result T E).mapErr g = err (g e) ∧
    (ok v : Result T E).mapErr g = ok v ∧
    Result.mapErrE mg (ok v : Result T E) = Except.ok (ok v) :=
  ⟨rfl, rfl, rfl, rfl, rfl, rfl, rfl, rfl⟩

/-- C6: constructor basics. `ok(v)` answers isOk true, isErr false and
unwraps to `v`; `err(e)` answers isOk false, isErr true and unwrapping it
fails with the unwrap-on-error message built from the payload. -/
theorem C6_constructor_basics (v : T) (e : E) (ren : E → String) :
    (ok v : Result T E).isOk = true ∧
    (ok v : Result T E).isErr = false ∧
    Result.unwrap ren (ok v : Result T E) = Except.ok v ∧
    (err e : Result T E).isOk = false ∧
    (err e : Result T E).isErr = true ∧
    Result.unwrap ren (err e : Result T E)
      = Except.error ("Tried to unwrap an Err:\n" ++ ren e) :=
  ⟨rfl, rfl, rfl, rfl, rfl, rfl⟩

/-- C9: `unwrapOr` returns the payload on Ok for every fallback, returns the
fallback unchanged on Err for every error, and never raises on either
variant (its exception-aware translation always returns normally). -/
theorem C9_unwrapOr (v : T) (e : E) (fb : U) :
    (ok v : Result T E).unwrapOr fb = Sum.inl v ∧
    (err e : Result T E).unwrapOr fb = Sum.inr fb ∧
    (∀ r : Result T E, (Result.unwrapOrE r fb : Except X (T ⊕ U))
      = Except.ok (r.unwrapOr fb)) :=
  ⟨rfl, rfl, fun _ => rfl⟩

/-- C3: `wrap` turns a normal completion `r` into `Ok(r)` and a raise `x`
into `Err(x)` holding `x` verbatim; its exception-aware translation (and
that of `wrapAsync`) always returns normally with a Result, so the caught
failure is never re-thrown and the async call settles to a Result for every
settled outcome of the wrapped operation. -/
theorem C3_wrap_contract (v : T) (x : E) :
    Result.wrap (Except.ok v) = (ok v : Result T E) ∧
    Result.wrap (Except.error x) = (err x : Result T E) ∧
    (∀ op : Except E T, (Result.wrapE op : Except X (Result T E))
      = Except.ok (Result.wrap op)) ∧
    (∀ op : Except E T, (Result.wrapAsync op : Except X (Result T E))
      = Except.ok (Result.wrap op)) := by
  refine ⟨rfl, rfl, ?_, ?_⟩ <;> intro op <;> cases op <;> rfl

/-- C4: totality of the non-asserting operations. With a pure mapper, the
exception-aware `map`, `mapErr` and `andThen` return normally on every
Result; `unwrapOr`, `isOk`, `isErr` and iteration return normally on every
Result; a raising mapper is not caught: on the variant that invokes it, the
combinator returns exactly the mapper outcome, raise included; and among
the asserting operations, `unwrap` and `expect` raise exactly on Err while
`expectErr` raises exactly on Ok. -/
theorem C4_totality_and_propagation (r : Result T E) (f : T → U) (g : E → F)
    (fb : U) (m : T → Except X U) (mg : E → Except X F)
    (ma : T → Except X (Result U E)) (v : T) (e : E)
    (ren : E → String) (msg : String) (ri : Result JSVal E) :
    Result.mapE (fun t => Except.ok (f t)) r = (Except.ok (r.map f) : Except X _) ∧
    Result.mapErrE (fun s => Except.ok (g s)) r = (Except.ok (r.mapErr g) : Except X _) ∧
    (∀ p : T → Result U E,
      Result.andThenE (fun t => Except.ok (p t)) r = (Except.ok (r.andThen p) : Except X _)) ∧
    (Result.unwrapOrE r fb : Except X (T ⊕ U)) = Except.ok (r.unwrapOr fb) ∧
    (Result.isOkE r : Except X Bool) = Except.ok r.isOk ∧
    (Result.isErrE r : Except X Bool) = Except.ok r.isErr ∧
    (Result.iterateE ri : Except X (List JSVal)) = Except.ok ri.iterate ∧
    Result.mapE m (ok v : Result T E) = (m v).map Result.Ok ∧
    Result.mapErrE mg (err e : Result T E) = (mg e).map Result.Err ∧
    Result.andThenE ma (ok v : Result T E) = ma v ∧
    Result.unwrap ren (ok v : Result T E) = Except.ok v ∧
    Result.unwrap ren (err e : Result T E)
      = Except.error ("Tried to unwrap an Err:\n" ++ ren e) ∧
    Result.expect ren msg (ok v : Result T E) = Except.ok v ∧
    Result.expect ren msg (err e : Result T E)
      = Except.error (msg ++ " - Error:\n" ++ ren e) ∧
    Result.expectErr msg (err e : Result T E) = Except.ok e ∧
    Result.expectErr msg (ok v : Result T E) = Except.error msg := by
  refine ⟨?_, ?_, ?_, rfl, rfl, rfl, ?_, rfl, rfl, rfl, rfl, rfl, rfl, rfl, rfl, rfl⟩
  · cases r <;> rfl
  · cases r <;> rfl
  · intro p; cases r <;> rfl
  · cases ri <;> rfl

/-- C7: iteration semantics. Iterating `ok([1,2,3])` yields 1, 2, 3 in
order; iterating any Err yields zero elements; iterating an Ok holding the
non-sequence-like payload 5 yields zero elements; and the exception-aware
translation of iteration returns normally on every Result, never taking the
failure path of `unwrap` (which the iterator bodies do not call). -/
theorem C7_iteration (x e : E) :
    Result.iterate (ok (JSVal.arr [JSVal.num 1, JSVal.num 2, JSVal.num 3]) : Result JSVal E)
      = [JSVal.num 1, JSVal.num 2, JSVal.num 3] ∧
    Result.iterate (err x : Result JSVal E) = [] ∧
    Result.iterate (ok (JSVal.num 5) : Result JSVal E) = [] ∧
    (∀ r : Result JSVal E, (Result.iterateE r : Except X (List JSVal))
      = Except.ok r.iterate) ∧
    (Result.iterateE (err e : Result JSVal E) : Except X (List JSVal)) = Except.ok [] := by
  refine ⟨rfl, rfl, rfl, ?_, rfl⟩
  intro r; cases r <;> rfl

/-- C8: `Result.match` dispatch. On an Ok it applies only the ok handler to
the unwrapped payload and returns its result, or undefined (`none`) when
that handler is omitted, and its output never depends on the err handler;
symmetrically on an Err. The exception-aware translation shows the
unselected handler is never invoked: even an always-raising handler in the
unselected slot leaves the call returning exactly the selected handler
outcome. -/
theorem C8_match_dispatch (v : T) (e : E) (f : T → A) (g : E → A)
    (okF okF2 : Option (T → A)) (errF errF2 : Option (E → A))
    (mf : T → Except X A) (mg : E → Except X A)
    (mok : Option (T → Except X A)) (merr : Option (E → Except X A)) :
    Result.matchR (ok v : Result T E) (some f) errF = some (f v) ∧
    Result.matchR (ok v : Result T E) none errF = none ∧
    Result.matchR (ok v : Result T E) okF errF = Result.matchR (ok v) okF errF2 ∧
    Result.matchR (err e : Result T E) okF (some g) = some (g e) ∧
    Result.matchR (err e : Result T E) okF none = none ∧
    Result.matchR (err e : Result T E) okF errF = Result.matchR (err e) okF2 errF ∧
    Result.matchE (ok v : Result T E) (some mf) merr = (mf v).map some ∧
    Result.matchE (err e : Result T E) mok (some mg) = (mg e).map some :=
  ⟨rfl, rfl, rfl, rfl, rfl, rfl, rfl, rfl⟩

/-- C10: a string payload is sequence-like. The object coercion of a string
has an iterator, and iterating `ok(s)` yields the code points of `s` in
order, each as a one-character string. -/
theorem C10_string_iteration (s : String) :
    jsHasIterator (JSVal.str s) = true ∧
    (∀ E : Type, Result.iterate (ok (JSVal.str s) : Result JSVal E)
      = s.data.map (fun c => JSVal.str (String.mk [c]))) :=
  ⟨rfl, fun _ => rfl⟩

/-- C5 counterexample: the claim says every map-family or chain-family call
produces a new instance distinct from the receiver, but `ErrImpl.map`
executes `return this`: mapping over the Err allocated with id 0 returns a
Result whose id is still 0 — the very same instance, with the same payload. -/
theorem C5_counterexample :
    (((mkErr 7 0 : RRef Nat Nat × Nat).1.mapA (fun t => t + 1) 1).1.id
      = ((mkErr 7 0 : RRef Nat Nat × Nat).1).id) ∧
    ((mkErr 7 0 : RRef Nat Nat × Nat).1.mapA (fun t => t + 1) 1).1.val = Result.Err 7 :=
  ⟨rfl, rfl⟩

/-- C5 as amended: no call mutates the receiver (every field is readonly and
no method body assigns; the embedding is pure state passing), and the cases
that construct — `map` on Ok, `mapErr` on Err, and whatever `andThen`'s
mapper constructs — yield a fresh instance with the mapped payload; but the
pass-through cases (`map` and `andThen` on Err, `mapErr` on Ok) return the
receiver itself, same id and same tag and payload, not a distinct instance. -/
theorem C5_amended_allocation (v : T) (e : E) (f : T → U) (g : E → F)
    (a : T → Nat → RRef U E × Nat) (n m : Nat) :
    ((mkOk v n : RRef T E × Nat).1.mapA f ((mkOk v n : RRef T E × Nat).2)).1.id
      ≠ (mkOk v n : RRef T E × Nat).1.id ∧
    ((mkOk v n : RRef T E × Nat).1.mapA f ((mkOk v n : RRef T E × Nat).2)).1.val
      = Result.Ok (f v) ∧
    ((mkErr e n : RRef T E × Nat).1.mapErrA g ((mkErr e n : RRef T E × Nat).2)).1.id
      ≠ (mkErr e n : RRef T E × Nat).1.id ∧
    ((mkErr e n : RRef T E × Nat).1.mapErrA g ((mkErr e n : RRef T E × Nat).2)).1.val
      = Result.Err (g e) ∧
    ((mkOk v n : RRef T E × Nat).1.mapErrA g m).1 = ⟨n, Result.Ok v⟩ ∧
    ((mkErr e n : RRef T E × Nat).1.mapA f m).1 = ⟨n, Result.Err e⟩ ∧
    ((mkErr e n : RRef T E × Nat).1.andThenA a m).1 = ⟨n, Result.Err e⟩ := by
  refine ⟨?_, rfl, ?_, rfl, rfl, rfl, rfl⟩ <;>
    simp [mkOk, mkErr, RRef.mapA, RRef.mapErrA]

end MaybeLib
